import Mathlib

/-!
Shallow embedding of src/app/App.js (the single React Native component of the
safe-driver repository) and proofs about it.

The component keeps five pieces of React state (the five useState calls at
lines 26-33), a per-component mutable animation-frame id (line 40), and drives
one polling loop over camera frames (handleCameraStream, lines 145-152) whose
body calls getPrediction (lines 117-136).  The MobileNet classifier is an
external black box: tensor to ranked list of (className, probability); we model
each frame as carrying the classifier's answer for that frame's tensor, as a
function of the topk argument.  Probabilities are embedded as rationals.

The browser animation-frame scheduler is modelled explicitly: a counter of
fresh ids and the list of currently pending callback ids.  requestAnimationFrame
returns a fresh id and adds it to the pending list; cancelAnimationFrame removes
an id; a pending callback that fires is removed from the list and runs the loop
body.
-/

namespace SafeDriver

/-- One element of the array returned by mobilenetModel.classify
(see the comment block at lines 102-115 of App.js). -/
structure Pred where
  className : String
  probability : ℚ
deriving DecidableEq, Repr

/-- The React state of the App component plus the mutable animation-frame id.
Fields in source order: the five useState calls at lines 26-33 of App.js and
the let-bound requestAnimationFrameId at line 40. -/
structure AppState where
  predictionFound : Bool
  hasPermission : Option Bool
  prediction : String
  mobilenetModel : Option Unit
  frameworkReady : Bool
  requestAnimationFrameId : Nat
deriving DecidableEq, Repr

/-- Initial values of the useState calls: false, null, the empty string,
null, false; requestAnimationFrameId starts at 0 (line 40). -/
def initApp : AppState :=
  { predictionFound := false
    hasPermission := none
    prediction := ""
    mobilenetModel := none
    frameworkReady := false
    requestAnimationFrameId := 0 }

/-- The browser animation-frame scheduler: a supply of fresh ids (starting at 1,
so the initial stored id 0 never names a real callback) and the ids of the
callbacks currently scheduled and not yet fired or cancelled. -/
structure RAF where
  nextId : Nat
  pending : List Nat
deriving DecidableEq, Repr

/-- requestAnimationFrame: hand out a fresh id and schedule it. -/
def RAF.request (s : RAF) : Nat × RAF :=
  (s.nextId, ⟨s.nextId + 1, s.pending ++ [s.nextId]⟩)

/-- cancelAnimationFrame: remove the given id from the pending callbacks
(a no-op when the id is not pending, e.g. already fired). -/
def RAF.cancel (s : RAF) (i : Nat) : RAF :=
  ⟨s.nextId, s.pending.filter (fun x => x != i)⟩

/-- Result of one call to getPrediction: the component state and scheduler
afterwards, and whether mobilenetModel.classify was actually invoked. -/
structure GPOut where
  app : AppState
  raf : RAF
  classified : Bool
deriving DecidableEq, Repr

/-- getPrediction (App.js lines 117-136).  `tensor` is the camera tensor
(none models a null/undefined argument, caught by the guard at line 118);
`classify` is the classifier's answer on this tensor as a function of the topk
argument (none models a null return).  The call at line 121 reads
mobilenetModel; when that handle is still null the JavaScript throws a
TypeError, modelled as an error result.  The source invokes classify with
topk set to 1 (line 121) and reads only element 0 (line 127). -/
def getPrediction (st : AppState) (raf : RAF) (tensor : Option Unit)
    (classify : Nat → Option (List Pred)) : Except String GPOut :=
  if tensor = none then Except.ok ⟨st, raf, false⟩
  else
    match st.mobilenetModel with
    | none => Except.error "TypeError: cannot read classify of null"
    | some _ =>
      match classify 1 with
      | none => Except.ok ⟨st, raf, true⟩
      | some [] => Except.ok ⟨st, raf, true⟩
      | some (top :: _) =>
        if top.probability > mkRat 3 10 then
          Except.ok ⟨{ st with predictionFound := true, prediction := top.className },
                     RAF.cancel raf st.requestAnimationFrameId, true⟩
        else Except.ok ⟨st, raf, true⟩

/-- loadNewPrediction (App.js lines 158-161): reset the two prediction state
variables. -/
def loadNewPrediction (st : AppState) : AppState :=
  { st with prediction := "", predictionFound := false }

/-- The body of the App render output (line 213): either the prediction view
showing a label with the reset button, the bare activity indicator, or the
camera view. -/
inductive Body where
  | predictionView (label : String)
  | loadingIndicator
  | cameraView
deriving DecidableEq, Repr

/-- showPredictionView (App.js lines 163-176): label plus the reset button when
predictionFound, otherwise an activity indicator. -/
def showPredictionView (st : AppState) : Body :=
  if st.predictionFound then Body.predictionView st.prediction
  else Body.loadingIndicator

/-- The body branch of the App return value (line 213). -/
def renderBody (st : AppState) : Body :=
  if st.predictionFound then showPredictionView st else Body.cameraView

/-- The full render output of App (lines 204-216): the fixed header title and
the body. -/
structure Rendered where
  title : String
  body : Body
deriving DecidableEq, Repr

/-- The App render function (lines 204-216). -/
def AppRender (st : AppState) : Rendered :=
  ⟨"My Pictionary", renderBody st⟩

/-- One camera frame delivered by the tensor stream: the tensor handed to
getPrediction and the classifier's answer on it as a function of topk. -/
structure Frame where
  tensor : Option Unit
  classify : Nat → Option (List Pred)

/-- The whole system: component state, the animation-frame scheduler, whether
the camera has started streaming, whether the component has unmounted, whether
a TypeError was thrown, and how many times classify has been invoked. -/
structure Sys where
  app : AppState
  raf : RAF
  cameraStarted : Bool
  unmounted : Bool
  crashed : Bool
  classifyCount : Nat
deriving DecidableEq, Repr

/-- The initial system: initial component state, empty scheduler. -/
def initSys : Sys :=
  { app := initApp
    raf := ⟨1, []⟩
    cameraStarted := false
    unmounted := false
    crashed := false
    classifyCount := 0 }

/-- The body of `loop` in handleCameraStream (lines 146-150), run as one
atomic step: pull the next frame, run getPrediction on it, then
unconditionally store a fresh requestAnimationFrame id (line 149).  A thrown
TypeError aborts the body, so the reschedule at line 149 does not run in that
case.  In the source the body is an async function whose awaits allow other
events between its start and line 149; this serialized version
under-approximates those interleavings (every trace of the `step` machine is a
real execution, but not conversely).  The `astep` machine below splits the
body at its await boundary. -/
def runBody (s : Sys) (f : Frame) : Sys :=
  match getPrediction s.app s.raf f.tensor f.classify with
  | Except.error _ => { s with crashed := true }
  | Except.ok r =>
    let q := RAF.request r.raf
    { s with
      app := { r.app with requestAnimationFrameId := q.1 }
      raf := q.2
      classifyCount := s.classifyCount + (if r.classified then 1 else 0) }

/-- External events driving the component. -/
inductive Event where
  /-- The async body of the one-time effect (lines 52-70) completes: the
  permission request returned `status`, the model finished loading. -/
  | initDone (status : String)
  /-- The TensorCamera onReady fires (line 198): handleCameraStream runs, and
  when predictionFound is false the loop starts with this first frame. -/
  | cameraReady (f : Frame)
  /-- The pending animation-frame callback with id `i` fires with frame `f`. -/
  | rafFire (i : Nat) (f : Frame)
  /-- The reset button is pressed (line 171): loadNewPrediction runs. -/
  | pressReset
  /-- The component unmounts: the cleanup at lines 77-81 runs
  cancelAnimationFrame on the stored id. -/
  | unmount

/-- One step of the system.  Component-driven events (camera onReady, button
press) cannot occur after unmount; a pending animation-frame callback is
scheduled globally and fires regardless of the component, which is exactly why
the cleanup must cancel it.  This machine serializes each loop body into one
step (see runBody) and fires onReady at most once; both restrict the
program's interleavings, so this machine is used to exhibit concrete traces
(each of which is a real execution) and for the effect of single events; the
astep machine below additionally exposes the await boundary inside the loop
body. -/
def step (s : Sys) : Event → Sys
  | Event.initDone status =>
    { s with app := { s.app with
        hasPermission := some (status == "granted")
        mobilenetModel := some ()
        frameworkReady := true } }
  | Event.cameraReady f =>
    if s.unmounted || s.cameraStarted then s
    else
      let s1 := { s with cameraStarted := true }
      if s1.app.predictionFound then s1 else runBody s1 f
  | Event.rafFire i f =>
    if i ∈ s.raf.pending then
      runBody { s with raf := { s.raf with pending := s.raf.pending.erase i } } f
    else s
  | Event.pressReset =>
    if s.unmounted then s
    else { s with app := loadNewPrediction s.app }
  | Event.unmount =>
    if s.unmounted then s
    else { s with raf := RAF.cancel s.raf s.app.requestAnimationFrameId
                  unmounted := true }

/-- Run the system from the initial state over a list of events. -/
def runEvents (l : List Event) : Sys :=
  l.foldl step initSys

/-- The names and initial values of the useState calls of the App component,
in source order (App.js lines 26-33). -/
def useStateCalls : List (String × String) :=
  [("predictionFound", "false"),
   ("hasPermission", "null"),
   ("prediction", "empty string"),
   ("mobilenetModel", "null"),
   ("frameworkReady", "false")]

/-- Invariant of the polling loop: at most one animation-frame callback is
pending at any time, its id is the one stored in requestAnimationFrameId,
nothing is pending before the camera stream starts, and nothing is pending
after the component has unmounted. -/
def LoopInv (s : Sys) : Prop :=
  (s.raf.pending = [] ∨ s.raf.pending = [s.app.requestAnimationFrameId]) ∧
  (s.cameraStarted = false → s.raf.pending = []) ∧
  (s.unmounted = true → s.raf.pending = [])

/-- The classifier answer of an example high-confidence frame. -/
def exTop : Pred := ⟨"joystick", mkRat 9 10⟩

/-- Example classifier behaviour: one result with probability 9/10. -/
def exClassify : Nat → Option (List Pred) := fun _ => some [exTop]

/-- An example camera frame with a non-null tensor and the high-confidence
classifier answer. -/
def exFrame : Frame := ⟨some (), exClassify⟩

/-- The initial component state after the model has been stored. -/
def exLoaded : AppState := { initApp with mobilenetModel := some () }

/-- A fresh animation-frame scheduler. -/
def raf0 : RAF := RAF.mk 1 []

/-- The system with the asynchrony of the loop body made explicit.  In the
source, `loop` (lines 146-150) is an async function: it awaits the next frame
and getPrediction (which awaits mobilenetModel.classify), so between the moment
a loop body starts and the moment its awaited calls resolve - upon which the
state writes of getPrediction and the unconditional reschedule at line 149
happen - any other event can run, in particular the unmount cleanup.
`inFlight` holds the frames of the loop bodies that have started and whose
awaited calls have not yet resolved, oldest first. -/
structure AsyncSys where
  app : AppState
  raf : RAF
  inFlight : List Frame
  unmounted : Bool
  classifyCount : Nat

/-- Events of the asynchronous machine.  A loop body is split in two: it starts
(at onReady via the direct loop() call of line 151, or when a pending
animation-frame callback fires) and later resumes when its awaited calls
resolve.  Resumption is a pending JavaScript task: it runs even after the
component has unmounted.  onReady is not gated to fire once: TensorCamera is
re-created on every render (line 37), so the camera can remount and onReady can
fire again after a re-render. -/
inductive AEvent where
  /-- The async body of the one-time effect (lines 52-70) completes. -/
  | initDone (status : String)
  /-- onReady fires (line 198): when predictionFound is false, loop() starts a
  body with this frame (line 151) and suspends at its first await. -/
  | cameraReady (f : Frame)
  /-- The pending animation-frame callback with id `i` fires: a loop body
  starts with frame `f` and suspends at its first await. -/
  | rafFire (i : Nat) (f : Frame)
  /-- The awaited calls of the oldest in-flight loop body resolve: the effects
  of getPrediction are applied and line 149 stores a freshly requested
  animation-frame id; a thrown TypeError skips the reschedule. -/
  | resume
  /-- The component unmounts: the cleanup at lines 77-81 runs
  cancelAnimationFrame on the stored id. -/
  | unmount

/-- One step of the asynchronous machine. -/
def astep (s : AsyncSys) : AEvent → AsyncSys
  | AEvent.initDone status =>
    { s with app := { s.app with
        hasPermission := some (status == "granted")
        mobilenetModel := some ()
        frameworkReady := true } }
  | AEvent.cameraReady f =>
    if s.unmounted then s
    else if s.app.predictionFound then s
    else { s with inFlight := s.inFlight ++ [f] }
  | AEvent.rafFire i f =>
    if i ∈ s.raf.pending then
      { s with raf := { s.raf with pending := s.raf.pending.erase i }
               inFlight := s.inFlight ++ [f] }
    else s
  | AEvent.resume =>
    match s.inFlight with
    | [] => s
    | f :: rest =>
      match getPrediction s.app s.raf f.tensor f.classify with
      | Except.error _ => { s with inFlight := rest }
      | Except.ok r =>
        let q := RAF.request r.raf
        { s with
          app := { r.app with requestAnimationFrameId := q.1 }
          raf := q.2
          inFlight := rest
          classifyCount := s.classifyCount + (if r.classified then 1 else 0) }
  | AEvent.unmount =>
    if s.unmounted then s
    else { s with raf := RAF.cancel s.raf s.app.requestAnimationFrameId
                  unmounted := true }

/-- The initial asynchronous system. -/
def initAsync : AsyncSys :=
  { app := initApp
    raf := RAF.mk 1 []
    inFlight := []
    unmounted := false
    classifyCount := 0 }

/-- Run the asynchronous machine from the initial state over a list of
events. -/
def runAsync (l : List AEvent) : AsyncSys :=
  l.foldl astep initAsync

/-- An example camera frame whose classification stays below the threshold, so
the loop keeps polling. -/
def exLowFrame : Frame := ⟨some (), fun _ => some [⟨"monitor", mkRat 1 10⟩]⟩

/-- A trace in which the component unmounts while a loop iteration is awaiting
its classification: init completes, the camera starts the loop, the first body
resolves below threshold and schedules callback 1, callback 1 fires and its
body suspends at its await, and then the component unmounts - the cleanup
cancels the stored id 1, which has already fired. -/
def unmountTrace : List AEvent :=
  [AEvent.initDone ("granted"),
   AEvent.cameraReady exLowFrame,
   AEvent.resume,
   AEvent.rafFire 1 exLowFrame,
   AEvent.unmount]

/-- Claim C1: when getPrediction reaches the classifier (non-null tensor, model
loaded, no prediction yet) and the topk-1 call returns a non-empty array, the
call sets predictionFound to true and stores the top className exactly when the
top probability is strictly greater than 0.3. -/
theorem getPrediction_top_threshold_iff (st : AppState) (raf : RAF)
    (classify : Nat → Option (List Pred)) (top : Pred) (rest : List Pred) (r : GPOut)
    (hm : st.mobilenetModel = some ()) (hpf : st.predictionFound = false)
    (hc : classify 1 = some (top :: rest))
    (hr : getPrediction st raf (some ()) classify = Except.ok r) :
    (r.app.predictionFound = true ∧ r.app.prediction = top.className) ↔
      top.probability > mkRat 3 10 := by
  unfold getPrediction at hr
  rw [hm, hc] at hr
  by_cases hp : top.probability > mkRat 3 10
  · simp only [hp, if_true, reduceCtorEq, if_false, Except.ok.injEq] at hr
    subst hr
    simp [hp]
  · simp only [hp, if_false, reduceCtorEq, if_true, Except.ok.injEq] at hr
    subst hr
    simp [hp, hpf]

/-- Witness for C1 at a concrete call: loaded model, tensor present, one
classifier result with probability 9/10. -/
theorem getPrediction_top_threshold_iff_witness :
    ((GPOut.mk { exLoaded with predictionFound := true, prediction := "joystick" } raf0
        true).app.predictionFound = true ∧
      (GPOut.mk { exLoaded with predictionFound := true, prediction := "joystick" } raf0
        true).app.prediction = exTop.className) ↔
      exTop.probability > mkRat 3 10 :=
  getPrediction_top_threshold_iff exLoaded raf0 exClassify exTop [] _ rfl rfl rfl rfl

/-- Claim C2 is violated by the code: run init (status granted), let the camera
deliver a frame classified at probability 9/10 (above the threshold), so
predictionFound becomes true; the loop body nevertheless leaves a newly
scheduled callback pending (the reschedule at App.js line 149 runs after the
cancel at line 130, which only names the already-fired callback), and when that
callback fires the classifier is invoked a second time. -/
theorem loop_continues_after_prediction_found :
    (step (step initSys (Event.initDone ("granted"))) (Event.cameraReady exFrame)).app.predictionFound
        = true ∧
    (step (step initSys (Event.initDone ("granted"))) (Event.cameraReady exFrame)).raf.pending
        = [1] ∧
    (step (step (step initSys (Event.initDone ("granted"))) (Event.cameraReady exFrame))
        (Event.rafFire 1 exFrame)).classifyCount = 2 := by
  decide

/-- Claim C3: loadNewPrediction restores the prediction state to its initial
values in every state, the body then shows the camera view again, and applying
it to the initial state leaves the state unchanged. -/
theorem loadNewPrediction_resets_state (st : AppState) :
    (loadNewPrediction st).prediction = "" ∧
    (loadNewPrediction st).predictionFound = false ∧
    (loadNewPrediction st).prediction = initApp.prediction ∧
    (loadNewPrediction st).predictionFound = initApp.predictionFound ∧
    renderBody (loadNewPrediction st) = Body.cameraView ∧
    loadNewPrediction initApp = initApp :=
  ⟨rfl, rfl, rfl, rfl, rfl, rfl⟩

/-- Claim C4 is false as stated: the component does not own exactly three
pieces of process-wide state; it has five useState calls, among them
predictionFound and frameworkReady, which are not in the claimed three. -/
theorem state_hooks_not_three :
    useStateCalls.length ≠ 3 ∧
    "frameworkReady" ∈ useStateCalls.map Prod.fst ∧
    "predictionFound" ∈ useStateCalls.map Prod.fst := by
  decide

/-- Amended C4: the component owns five pieces of process-wide state, in source
order predictionFound, hasPermission, prediction, mobilenetModel and
frameworkReady; the three named by the claim are among them. -/
theorem state_hooks_five :
    useStateCalls.length = 5 ∧
    useStateCalls.map Prod.fst =
      ["predictionFound", "hasPermission", "prediction", "mobilenetModel", "frameworkReady"] ∧
    "hasPermission" ∈ useStateCalls.map Prod.fst ∧
    "mobilenetModel" ∈ useStateCalls.map Prod.fst ∧
    "prediction" ∈ useStateCalls.map Prod.fst := by
  decide

/-- Claim C7: the body shows the prediction view with the current label exactly
when predictionFound is true, and the camera view exactly when it is false. -/
theorem body_flips_on_predictionFound (st : AppState) :
    (renderBody st = Body.predictionView st.prediction ↔ st.predictionFound = true) ∧
    (renderBody st = Body.cameraView ↔ st.predictionFound = false) := by
  cases h : st.predictionFound <;>
    simp [renderBody, showPredictionView, h]

/-- Claim C10: the render output of App is independent of hasPermission; two
states differing only in that flag render identically. -/
theorem render_independent_of_hasPermission (st : AppState) (p : Option Bool) :
    AppRender { st with hasPermission := p } = AppRender st :=
  rfl

/-- Claim C6: after the one-time initialization effect completes with the
permission request returning a status, hasPermission is true exactly when the
status is granted, and false for every other status. -/
theorem init_sets_hasPermission_iff_granted (s : Sys) (status : String) :
    ((step s (Event.initDone status)).app.hasPermission = some true ↔ status = "granted") ∧
    ((step s (Event.initDone status)).app.hasPermission = some false ↔ status ≠ "granted") := by
  constructor <;> simp [step]

/-- Witness for C6 at the concrete status granted from the initial system. -/
theorem init_sets_hasPermission_iff_granted_witness :
    ((step initSys (Event.initDone ("granted"))).app.hasPermission = some true ↔
      ("granted" : String) = "granted") ∧
    ((step initSys (Event.initDone ("granted"))).app.hasPermission = some false ↔
      ("granted" : String) ≠ "granted") :=
  init_sets_hasPermission_iff_granted initSys ("granted")

/-- Claim C8: getPrediction is atomic on failure: with a null tensor, or (with
the model loaded) a null or empty classifier result, or a top probability not
above 0.3, it returns with the component state and the scheduler exactly as
they were. -/
theorem getPrediction_failure_atomic (st : AppState) (raf : RAF) (t : Option Unit)
    (classify : Nat → Option (List Pred))
    (h : t = none ∨ (st.mobilenetModel = some () ∧
        (classify 1 = none ∨ classify 1 = some [] ∨
          ∃ top rest, classify 1 = some (top :: rest) ∧
            ¬ top.probability > mkRat 3 10))) :
    ∃ c, getPrediction st raf t classify = Except.ok (GPOut.mk st raf c) := by
  rcases h with h | ⟨hm, hc⟩
  · exact ⟨false, by simp [getPrediction, h]⟩
  · cases t with
    | none => exact ⟨false, by simp [getPrediction]⟩
    | some u =>
      refine ⟨true, ?_⟩
      rcases hc with hc | hc | ⟨top, rest, hc, hp⟩
      · simp [getPrediction, hm, hc]
      · simp [getPrediction, hm, hc]
      · simp [getPrediction, hm, hc, hp]

/-- Witness for C8: loaded model, tensor present, classifier answers with
probability 1/10, below the threshold. -/
theorem getPrediction_failure_atomic_witness :
    ∃ c, getPrediction exLoaded raf0 (some ())
        (fun _ => some [⟨"monitor", mkRat 1 10⟩]) =
      Except.ok (GPOut.mk exLoaded raf0 c) :=
  getPrediction_failure_atomic exLoaded raf0 (some ()) _
    (Or.inr ⟨rfl, Or.inr (Or.inr ⟨⟨"monitor", mkRat 1 10⟩, [], rfl, by decide⟩)⟩)

/-- Claim C9 is false as stated: from the initial state, the camera can deliver
a frame with a non-null tensor before initialization stores the model, and
getPrediction then dereferences the null mobilenetModel (the system records the
TypeError as a crash). -/
theorem classify_null_deref_reachable :
    (step initSys (Event.cameraReady exFrame)).crashed = true ∧
    initSys.app.mobilenetModel = none ∧
    exFrame.tensor ≠ none := by
  decide

/-- Amended C9: passing the tensor guard does not imply the model is loaded;
getPrediction dereferences a null handle exactly when the tensor is non-null
and mobilenetModel is null, and never does so once the model handle is
stored. -/
theorem getPrediction_error_iff_model_null (st : AppState) (raf : RAF) (t : Option Unit)
    (classify : Nat → Option (List Pred)) :
    (∃ e, getPrediction st raf t classify = Except.error e) ↔
      (t ≠ none ∧ st.mobilenetModel = none) := by
  cases t with
  | none => simp [getPrediction]
  | some u =>
    cases hm : st.mobilenetModel with
    | none => simp [getPrediction, hm]
    | some v =>
      cases hc : classify 1 with
      | none => simp [getPrediction, hm, hc]
      | some l =>
        cases l with
        | nil => simp [getPrediction, hm, hc]
        | cons top rest =>
          by_cases hp : top.probability > mkRat 3 10 <;>
            simp [getPrediction, hm, hc, hp]

/-- Witness for amended C9 at a concrete call: tensor present, model still
null, so the error side of the equivalence holds. -/
theorem getPrediction_error_iff_model_null_witness :
    (∃ e, getPrediction initApp raf0 (some ()) exClassify = Except.error e) ↔
      ((some () : Option Unit) ≠ none ∧ initApp.mobilenetModel = none) :=
  getPrediction_error_iff_model_null initApp raf0 (some ()) exClassify

/-- Claim C5 is violated by the code: when the component unmounts while a loop
iteration is awaiting its classification (unmountTrace), the cleanup's
cancelAnimationFrame names the already-fired callback id and cancels nothing;
the in-flight body then resumes after unmount and line 149 unconditionally
schedules callback 2, that callback fires after unmount and starts another
loop iteration, and that iteration invokes the classifier (a third
classification in total) - all after unmount, despite the avoid-leaks comment
at lines 72-76. -/
theorem loop_iteration_after_unmount :
    (runAsync unmountTrace).unmounted = true ∧
    (runAsync unmountTrace).inFlight.length = 1 ∧
    (astep (runAsync unmountTrace) AEvent.resume).raf.pending = [2] ∧
    (astep (astep (runAsync unmountTrace) AEvent.resume)
        (AEvent.rafFire 2 exLowFrame)).inFlight.length = 1 ∧
    (astep (astep (astep (runAsync unmountTrace) AEvent.resume)
        (AEvent.rafFire 2 exLowFrame)) AEvent.resume).classifyCount = 3 := by
  decide

end SafeDriver
